import Mathlib

/-!
Verification of the Pandora quiz-automation core (src/scraper.js, src/login.js)
against its natural-language specification.

The JavaScript control flow is shallowly embedded: the per-question loop of
handleDiagnostic becomes a fuel-indexed recursion; JS exceptions become
Except results; the exogenous environment (page waits, LLM responses, click
successes) is passed in explicitly; the JSON value stored in the LLM field
correctAnswer is modelled by the inductive JsAnswer, with JS truthiness made
explicit.
-/

namespace Pandora

/-- A JavaScript value as it can appear in the LLM analysis field
correctAnswer after JSON parsing (scraper.js line 104): a missing key reads
as undefined, or the value is null, a string, or an array of strings. -/
inductive JsAnswer where
  | undef
  | null
  | str (s : String)
  | arr (l : List String)
deriving DecidableEq, Repr

/-- JS truthiness of a correctAnswer value, as tested at scraper.js line 124:
undefined and null are falsy, a string is truthy iff non-empty, and every
array (including the empty array) is truthy. -/
def JsAnswer.truthy : JsAnswer → Bool
  | .undef => false
  | .null => false
  | .str s => !(s == "")
  | .arr _ => true

/-- Array.isArray on a correctAnswer value (scraper.js line 125). -/
def JsAnswer.isArr : JsAnswer → Bool
  | .arr _ => true
  | _ => false

/-- typeof value === string on a correctAnswer value (scraper.js line 139). -/
def JsAnswer.isStr : JsAnswer → Bool
  | .str _ => true
  | _ => false

/-- The underlying list of an array value (default [] elsewhere). -/
def JsAnswer.arrVal : JsAnswer → List String
  | .arr l => l
  | _ => []

/-- The underlying string of a string value (default "" elsewhere). -/
def JsAnswer.strVal : JsAnswer → String
  | .str s => s
  | _ => ""

/-- The parsed LLM vision analysis of one question (scraper.js lines 101-105):
question text, the questionType string, the options array (none models JSON
null or a missing field), and the proposed correctAnswer. -/
structure QuestionAnalysis where
  questionText : String
  questionType : String
  options : Option (List String)
  correctAnswer : JsAnswer
deriving DecidableEq, Repr

/-- The three questionType strings treated as choice questions by the
dispatch at scraper.js lines 109 and 124. -/
def isChoiceType (qt : String) : Prop :=
  qt = "multiple-choice-single" ∨ qt = "multiple-choice" ∨
    qt = "multiple-choice-multiple"

instance (qt : String) : Decidable (isChoiceType qt) := by
  unfold isChoiceType; infer_instance

/-- The first-option fallback of scraper.js lines 107-120: when correctAnswer
is exactly null, the questionType is a choice type and options is a non-empty
array, correctAnswer is overwritten with the first option (wrapped in a
one-element array for multiple-choice-multiple, as a bare string otherwise). -/
def applyFallback (a : QuestionAnalysis) : QuestionAnalysis :=
  match a.correctAnswer, a.options with
  | .null, some (firstOpt :: _) =>
    if isChoiceType a.questionType then
      if a.questionType = "multiple-choice-multiple" then
        { a with correctAnswer := .arr [firstOpt] }
      else
        { a with correctAnswer := .str firstOpt }
    else a
  | _, _ => a

/-- The option labels for which a click is attempted, from the interaction
dispatch of scraper.js lines 124-158: nothing unless the questionType is a
choice type and correctAnswer is truthy; for multiple-choice-multiple with an
array answer, every label of the array; otherwise for a string answer, that
single label; otherwise (unrecognized format) nothing, with only a warning. -/
def plannedClicks (a : QuestionAnalysis) : List String :=
  if isChoiceType a.questionType ∧ a.correctAnswer.truthy then
    if a.questionType = "multiple-choice-multiple" ∧ a.correctAnswer.isArr then
      a.correctAnswer.arrVal
    else if a.correctAnswer.isStr then
      [a.correctAnswer.strVal]
    else []
  else []

/-- Each planned click is attempted with its own try/catch (scraper.js lines
130-137 and 143-149): the attempt on each label is paired with that label's
own click result, independently of the others. -/
def appliedSelection (clickOk : String → Bool) (a : QuestionAnalysis) :
    List (String × Bool) :=
  (plannedClicks a).map (fun lab => (lab, clickOk lab))

/-- The labels the selector acts on for an analysis, fallback included
(scraper.js lines 107-158). -/
def appliedLabels (a : QuestionAnalysis) : List String :=
  plannedClicks (applyFallback a)

/-- One record pushed onto diagnosticData (scraper.js lines 203-207). -/
structure QuestionOutcome where
  questionIndex : Nat
  llmAnalysis : QuestionAnalysis
  actionTaken : String
deriving DecidableEq, Repr

/-- The exogenous environment of one loop iteration: whether the pre-steps
(idle wait, screenshot, LLM call and parse, scraper.js lines 46-105) succeed,
the analysis the LLM returns, the per-label option click results, and the
Next / Submit Quiz click results. -/
structure QuestionEnv where
  preOk : Bool
  analysis : QuestionAnalysis
  optionClickOk : String → Bool
  nextClickOk : Bool
  submitClickOk : Bool

/-- Observable side effects of one iteration: the question index, the option
click attempts with their results, and the terminal button attempted (none
when the pre-steps failed before reaching lines 160-201). -/
structure StepTrace where
  questionIndex : Nat
  optionClicks : List (String × Bool)
  terminalAttempt : Option String
deriving DecidableEq, Repr

/-- The trace of one iteration of the loop body (scraper.js lines 42-201):
if the pre-steps succeed, the selection is applied best-effort and then the
Next button is attempted when questionIndex < maxQuestionsToProcess, the
Submit Quiz button otherwise (lines 163 and 188). -/
def questionTrace (env : QuestionEnv) (idx total : Nat) : StepTrace :=
  if env.preOk then
    ⟨idx, appliedSelection env.optionClickOk (applyFallback env.analysis),
      some (if idx < total then "advance" else "submit")⟩
  else
    ⟨idx, [], none⟩

/-- The control-flow result of one iteration of the loop body: a pre-step
failure throws (lines 47-104), a Next click failure throws (line 186), a
Submit Quiz click failure throws (line 199); otherwise the pushed outcome
carries actionTaken next_question_clicked (line 169) or quiz_submitted
(line 194). -/
def questionResult (env : QuestionEnv) (idx total : Nat) :
    Except String QuestionOutcome :=
  if env.preOk then
    if idx < total then
      if env.nextClickOk then
        .ok ⟨idx, applyFallback env.analysis, "next_question_clicked"⟩
      else
        .error ("Failed to click Next button for Q" ++ toString idx)
    else
      if env.submitClickOk then
        .ok ⟨idx, applyFallback env.analysis, "quiz_submitted"⟩
      else
        .error ("Failed to click Submit Quiz button for Q" ++ toString idx)
  else
    .error ("LLM did not return content for question " ++ toString idx)

/-- The for loop of scraper.js lines 42-216, instrumented: starting at
question idx with the given number of iterations remaining, it returns the
outcomes pushed onto diagnosticData, the per-iteration traces, and the
escaping error if one was thrown. The loop returns early right after pushing
a quiz_submitted outcome (lines 210-213). -/
def loopAux (envs : Nat → QuestionEnv) (total : Nat) :
    Nat → Nat → List QuestionOutcome × List StepTrace × Option String
  | _, 0 => ([], [], none)
  | idx, fuel + 1 =>
    match questionResult (envs idx) idx total with
    | .error e => ([], [questionTrace (envs idx) idx total], some e)
    | .ok out =>
      if out.actionTaken = "quiz_submitted" then
        ([out], [questionTrace (envs idx) idx total], none)
      else
        (out :: (loopAux envs total (idx + 1) fuel).1,
         questionTrace (envs idx) idx total ::
           (loopAux envs total (idx + 1) fuel).2.1,
         (loopAux envs total (idx + 1) fuel).2.2)

/-- The instrumented run of handleDiagnostic over questions 1 up to
maxQuestionsToProcess: internal outcome log, traces, escaping error. -/
def handleDiagnosticTrace (envs : Nat → QuestionEnv)
    (maxQuestionsToProcess : Nat) :
    List QuestionOutcome × List StepTrace × Option String :=
  loopAux envs maxQuestionsToProcess 1 maxQuestionsToProcess

/-- The loop of handleDiagnostic as the caller sees it, with diagnosticData
as the accumulator: a thrown step error is re-thrown by the catch at
scraper.js line 226 and the accumulated log is dropped; the log is returned
only on the success paths (lines 212 and 219). -/
def diagLoop (envs : Nat → QuestionEnv) (total : Nat) :
    Nat → Nat → List QuestionOutcome → Except String (List QuestionOutcome)
  | _, 0, acc => .ok acc
  | idx, fuel + 1, acc =>
    match questionResult (envs idx) idx total with
    | .error e => .error e
    | .ok out =>
      if out.actionTaken = "quiz_submitted" then .ok (acc ++ [out])
      else diagLoop envs total (idx + 1) fuel (acc ++ [out])

/-- handleDiagnostic (scraper.js lines 29-228): runs the question loop and
either returns diagnosticData or propagates the fatal step error. -/
def handleDiagnostic (envs : Nat → QuestionEnv)
    (maxQuestionsToProcess : Nat) : Except String (List QuestionOutcome) :=
  diagLoop envs maxQuestionsToProcess 1 maxQuestionsToProcess []

/-- Drops the leading whitespace of a character list, as parseInt does. -/
def skipWs : List Char → List Char
  | [] => []
  | c :: cs => if c.isWhitespace then skipWs cs else c :: cs

/-- Accumulates the value of the leading decimal digits. -/
def digitsVal : List Char → Nat → Nat
  | [], acc => acc
  | c :: cs, acc =>
    if c.isDigit then digitsVal cs (acc * 10 + (c.toNat - '0'.toNat)) else acc

/-- The value of the leading digit run, or none when there is no digit. -/
def leadingDigits : List Char → Option Nat
  | [] => none
  | c :: cs => if c.isDigit then some (digitsVal (c :: cs) 0) else none

/-- Models JavaScript parseInt(s, 10) (scraper.js line 262): skip leading
whitespace, read an optional sign, then the longest leading digit run; the
result is NaN (none) when no digit follows. -/
def jsParseInt (s : String) : Option Int :=
  match skipWs s.toList with
  | '-' :: rest => (leadingDigits rest).map (fun n => -(n : Int))
  | '+' :: rest => (leadingDigits rest).map (fun n => (n : Int))
  | rest => (leadingDigits rest).map (fun n => (n : Int))

/-- What textContent hands to parseInt: a null textContent coerces to the
string null under JS string conversion. -/
def jsNullableText : Option String → String
  | none => "null"
  | some s => s

/-- The question-count discovery of scraper.js lines 257-274: the read of
the count indicator either throws (error) or yields a nullable text; a
thrown read, an unparseable text, or a non-positive parse all default the
count to 1; otherwise the parsed value is kept. -/
def resolveMaxQuestions : Except Unit (Option String) → Int
  | .error _ => 1
  | .ok v =>
    match jsParseInt (jsNullableText v) with
    | none => 1
    | some n => if n ≤ 0 then 1 else n

/-- The discovery-failure condition of scraper.js lines 263 and 269: the
read threw, or parseInt returned NaN, or the parse is non-positive. -/
def discoveryFailed : Except Unit (Option String) → Bool
  | .error _ => true
  | .ok v =>
    match jsParseInt (jsNullableText v) with
    | none => true
    | some n => decide (n ≤ 0)

/-- The exogenous environment of loginToCanvas (login.js lines 30-88):
whether session creation, the CDP connect, and the remaining steps (goto,
waits, fills, clicks) succeed. -/
structure LoginEnv where
  sessionCreateOk : Bool
  connectOk : Bool
  postConnectOk : Bool

/-- loginToCanvas modelled as (number of browser close invocations performed
inside, success flag): a failure before connect leaves browser undefined and
closes nothing; a failure after connect closes the browser once in the catch
(login.js line 82) and re-throws; success closes nothing and hands the
browser to the caller. -/
def loginToCanvas (e : LoginEnv) : Nat × Bool :=
  if e.sessionCreateOk then
    if e.connectOk then
      if e.postConnectOk then (0, true)
      else (1, false)
    else (0, false)
  else (0, false)

/-- The browser handle exists exactly when session creation and the CDP
connect both succeeded (login.js line 42). -/
def browserCreated (e : LoginEnv) : Bool :=
  e.sessionCreateOk && e.connectOk

/-- The exogenous environment of one whole run of runCanvasScraper: the
login environment, the Start Quiz wait and click results, the count
indicator read, the post-start wait, and the per-question environments. -/
structure RunEnv where
  login : LoginEnv
  startWaitOk : Bool
  countRead : Except Unit (Option String)
  startClickOk : Bool
  postStartWaitOk : Bool
  qenvs : Nat → QuestionEnv

/-- Observables of one whole run: how often browser close was invoked, the
question count that discovery resolved to (none when never reached), how
many loop iterations were entered, and the outcome log the loop built. -/
structure RunReport where
  closes : Nat
  totalResolved : Option Int
  invocations : Nat
  logBuilt : List QuestionOutcome

/-- runCanvasScraper (scraper.js lines 231-313): login, wait for the Start
Quiz button, discover the question count (never fatal), click Start Quiz,
wait, run handleDiagnostic; every error is caught without re-throwing (line
293), and the finally block (lines 299-312) closes the browser exactly when
loginResult holds one. A login failure leaves loginResult undefined, so the
finally block closes nothing on that path. -/
def runCanvasScraper (env : RunEnv) : RunReport :=
  if (loginToCanvas env.login).2 then
    if env.startWaitOk then
      if env.startClickOk then
        if env.postStartWaitOk then
          { closes := (loginToCanvas env.login).1 + 1
            totalResolved := some (resolveMaxQuestions env.countRead)
            invocations :=
              (handleDiagnosticTrace env.qenvs
                (resolveMaxQuestions env.countRead).toNat).2.1.length
            logBuilt :=
              (handleDiagnosticTrace env.qenvs
                (resolveMaxQuestions env.countRead).toNat).1 }
        else
          { closes := (loginToCanvas env.login).1 + 1
            totalResolved := some (resolveMaxQuestions env.countRead)
            invocations := 0, logBuilt := [] }
      else
        { closes := (loginToCanvas env.login).1 + 1
          totalResolved := some (resolveMaxQuestions env.countRead)
          invocations := 0, logBuilt := [] }
    else
      { closes := (loginToCanvas env.login).1 + 1
        totalResolved := none, invocations := 0, logBuilt := [] }
  else
    { closes := (loginToCanvas env.login).1
      totalResolved := none, invocations := 0, logBuilt := [] }

/-- Placeholder outcome used only as the default of List.getD. -/
def dummyOutcome : QuestionOutcome :=
  ⟨0, ⟨"", "", none, .undef⟩, ""⟩

/-- Inversion: a successful iteration of the loop body pushes the outcome of
the current question, with the fallback-adjusted analysis and the terminal
action dictated by the position of the question in the run. -/
theorem questionResult_ok_eq (env : QuestionEnv) (idx total : Nat)
    (out : QuestionOutcome)
    (h : questionResult env idx total = Except.ok out) :
    out = ⟨idx, applyFallback env.analysis,
      if idx < total then "next_question_clicked" else "quiz_submitted"⟩ := by
  unfold questionResult at h
  by_cases hp : env.preOk = true
  · rw [if_pos hp] at h
    by_cases hlt : idx < total
    · rw [if_pos hlt] at h
      by_cases hn : env.nextClickOk = true
      · rw [if_pos hn] at h
        injection h with h2
        rw [← h2, if_pos hlt]
      · rw [if_neg hn] at h
        exact absurd h (by simp)
    · rw [if_neg hlt] at h
      by_cases hs : env.submitClickOk = true
      · rw [if_pos hs] at h
        injection h with h2
        rw [← h2, if_neg hlt]
      · rw [if_neg hs] at h
        exact absurd h (by simp)
  · rw [if_neg hp] at h
    exact absurd h (by simp)

/-- The trace of an iteration carries the current question index, and its
terminal attempt is either missing (pre-step failure) or the button that
the position of the question dictates. -/
theorem questionTrace_spec (env : QuestionEnv) (idx total : Nat) :
    (questionTrace env idx total).questionIndex = idx ∧
    ((questionTrace env idx total).terminalAttempt = none ∨
     (questionTrace env idx total).terminalAttempt =
       some (if idx < total then "advance" else "submit")) := by
  unfold questionTrace
  by_cases hp : env.preOk = true <;> simp [hp]

/-- The loop pushes at most one outcome per remaining iteration. -/
theorem loopAux_log_length_le (envs : Nat → QuestionEnv) (total : Nat) :
    ∀ fuel idx, (loopAux envs total idx fuel).1.length ≤ fuel := by
  intro fuel
  induction fuel with
  | zero => intro idx; simp [loopAux]
  | succ m ih =>
    intro idx
    cases hq : questionResult (envs idx) idx total with
    | error e => simp [loopAux, hq]
    | ok out =>
      by_cases hs : out.actionTaken = "quiz_submitted"
      · simp [loopAux, hq, hs]
      · simp only [loopAux, hq, if_neg hs, List.length_cons]
        exact Nat.succ_le_succ (ih (idx + 1))

/-- Outcome k of the loop started at question idx records question idx + k:
the log indices are consecutive from the starting index. -/
theorem loopAux_log_index (envs : Nat → QuestionEnv) (total : Nat) :
    ∀ fuel idx k, k < (loopAux envs total idx fuel).1.length →
      ((loopAux envs total idx fuel).1.getD k dummyOutcome).questionIndex =
        idx + k := by
  intro fuel
  induction fuel with
  | zero => intro idx k hk; simp [loopAux] at hk
  | succ m ih =>
    intro idx k hk
    cases hq : questionResult (envs idx) idx total with
    | error e => simp [loopAux, hq] at hk
    | ok out =>
      have hout := questionResult_ok_eq (envs idx) idx total out hq
      by_cases hs : out.actionTaken = "quiz_submitted"
      · simp only [loopAux, hq, if_pos hs, List.length_singleton] at hk
        have hk0 : k = 0 := Nat.lt_one_iff.mp hk
        subst hk0
        simp only [loopAux, hq, if_pos hs, List.getD_cons_zero]
        rw [hout]
        rfl
      · simp only [loopAux, hq, if_neg hs, List.length_cons] at hk
        cases k with
        | zero =>
          simp only [loopAux, hq, if_neg hs, List.getD_cons_zero]
          rw [hout]
          rfl
        | succ j =>
          have hj : j < (loopAux envs total (idx + 1) m).1.length :=
            Nat.lt_of_succ_lt_succ hk
          have := ih (idx + 1) j hj
          simp only [loopAux, hq, if_neg hs, List.getD_cons_succ]
          omega

/-- Every outcome the loop pushes carries a successful terminal action:
a failed Next or Submit click throws before the push. -/
theorem loopAux_log_action (envs : Nat → QuestionEnv) (total : Nat) :
    ∀ fuel idx o, o ∈ (loopAux envs total idx fuel).1 →
      o.actionTaken = "next_question_clicked" ∨
      o.actionTaken = "quiz_submitted" := by
  intro fuel
  induction fuel with
  | zero => intro idx o ho; simp [loopAux] at ho
  | succ m ih =>
    intro idx o ho
    cases hq : questionResult (envs idx) idx total with
    | error e => simp [loopAux, hq] at ho
    | ok out =>
      have hout := questionResult_ok_eq (envs idx) idx total out hq
      by_cases hs : out.actionTaken = "quiz_submitted"
      · simp only [loopAux, hq, if_pos hs, List.mem_singleton] at ho
        subst ho
        exact Or.inr hs
      · simp only [loopAux, hq, if_neg hs, List.mem_cons] at ho
        rcases ho with ho | ho
        · subst ho
          rw [hout]
          by_cases hlt : idx < total <;> simp [hlt]
        · exact ih (idx + 1) o ho

/-- A quiz_submitted outcome short-circuits the loop: it is the last entry
pushed, and no error escapes afterwards. -/
theorem loopAux_submitted_last (envs : Nat → QuestionEnv) (total : Nat) :
    ∀ fuel idx k, k < (loopAux envs total idx fuel).1.length →
      ((loopAux envs total idx fuel).1.getD k dummyOutcome).actionTaken =
        "quiz_submitted" →
      k + 1 = (loopAux envs total idx fuel).1.length ∧
      (loopAux envs total idx fuel).2.2 = none := by
  intro fuel
  induction fuel with
  | zero => intro idx k hk; simp [loopAux] at hk
  | succ m ih =>
    intro idx k hk hsub
    cases hq : questionResult (envs idx) idx total with
    | error e => simp [loopAux, hq] at hk
    | ok out =>
      by_cases hs : out.actionTaken = "quiz_submitted"
      · simp only [loopAux, hq, if_pos hs, List.length_singleton] at hk ⊢
        have hk0 : k = 0 := Nat.lt_one_iff.mp hk
        subst hk0
        exact ⟨rfl, trivial⟩
      · simp only [loopAux, hq, if_neg hs, List.length_cons] at hk hsub ⊢
        cases k with
        | zero =>
          rw [List.getD_cons_zero] at hsub
          exact absurd hsub hs
        | succ j =>
          rw [List.getD_cons_succ] at hsub
          have hj : j < (loopAux envs total (idx + 1) m).1.length :=
            Nat.lt_of_succ_lt_succ hk
          have := ih (idx + 1) j hj hsub
          exact ⟨by omega, this.2⟩

/-- When no error escapes, the loop entered exactly as many iterations as it
pushed outcomes. -/
theorem loopAux_traces_length (envs : Nat → QuestionEnv) (total : Nat) :
    ∀ fuel idx, (loopAux envs total idx fuel).2.2 = none →
      (loopAux envs total idx fuel).2.1.length =
        (loopAux envs total idx fuel).1.length := by
  intro fuel
  induction fuel with
  | zero => intro idx _; simp [loopAux]
  | succ m ih =>
    intro idx herr
    cases hq : questionResult (envs idx) idx total with
    | error e => simp [loopAux, hq] at herr
    | ok out =>
      by_cases hs : out.actionTaken = "quiz_submitted"
      · simp [loopAux, hq, hs]
      · simp only [loopAux, hq, if_neg hs] at herr ⊢
        simp only [List.length_cons]
        rw [ih (idx + 1) herr]

/-- Every iteration the loop enters handles a question whose index lies in
the window of remaining indices, and attempts the terminal button dictated
by that index, unless the pre-steps failed first. -/
theorem loopAux_trace_mem (envs : Nat → QuestionEnv) (total : Nat) :
    ∀ fuel idx tr, tr ∈ (loopAux envs total idx fuel).2.1 →
      idx ≤ tr.questionIndex ∧ tr.questionIndex < idx + fuel ∧
      (tr.terminalAttempt = none ∨
       tr.terminalAttempt =
         some (if tr.questionIndex < total then "advance" else "submit")) := by
  intro fuel
  induction fuel with
  | zero => intro idx tr htr; simp [loopAux] at htr
  | succ m ih =>
    intro idx tr htr
    have hspec := questionTrace_spec (envs idx) idx total
    cases hq : questionResult (envs idx) idx total with
    | error e =>
      simp only [loopAux, hq, List.mem_singleton] at htr
      subst htr
      refine ⟨le_of_eq hspec.1.symm, ?_, ?_⟩
      · rw [hspec.1]; omega
      · rw [hspec.1]; exact hspec.2
    | ok out =>
      by_cases hs : out.actionTaken = "quiz_submitted"
      · simp only [loopAux, hq, if_pos hs, List.mem_singleton] at htr
        subst htr
        refine ⟨le_of_eq hspec.1.symm, ?_, ?_⟩
        · rw [hspec.1]; omega
        · rw [hspec.1]; exact hspec.2
      · simp only [loopAux, hq, if_neg hs, List.mem_cons] at htr
        rcases htr with htr | htr
        · subst htr
          refine ⟨le_of_eq hspec.1.symm, ?_, ?_⟩
          · rw [hspec.1]; omega
          · rw [hspec.1]; exact hspec.2
        · have := ih (idx + 1) tr htr
          exact ⟨by omega, by omega, this.2.2⟩

/-- A loop given one remaining iteration enters exactly one iteration,
whatever that iteration does. -/
theorem loopAux_one_invocation (envs : Nat → QuestionEnv) (total idx : Nat) :
    (loopAux envs total idx 1).2.1.length = 1 := by
  cases hq : questionResult (envs idx) idx total with
  | error e => simp [loopAux, hq]
  | ok out =>
    by_cases hs : out.actionTaken = "quiz_submitted" <;>
      simp [loopAux, hq, hs]

/-- The caller-visible loop agrees with the instrumented loop: it returns
the accumulated log exactly when no error escapes, and the bare error
otherwise. -/
theorem diagLoop_eq_loopAux (envs : Nat → QuestionEnv) (total : Nat) :
    ∀ fuel idx acc, diagLoop envs total idx fuel acc =
      match (loopAux envs total idx fuel).2.2 with
      | none => Except.ok (acc ++ (loopAux envs total idx fuel).1)
      | some e => Except.error e := by
  intro fuel
  induction fuel with
  | zero => intro idx acc; simp [diagLoop, loopAux]
  | succ m ih =>
    intro idx acc
    cases hq : questionResult (envs idx) idx total with
    | error e => simp [diagLoop, loopAux, hq]
    | ok out =>
      by_cases hs : out.actionTaken = "quiz_submitted"
      · simp [diagLoop, loopAux, hq, hs]
      · simp only [diagLoop, loopAux, hq, if_neg hs]
        rw [ih (idx + 1) (acc ++ [out])]
        cases (loopAux envs total (idx + 1) m).2.2 with
        | none => simp
        | some e => simp

/-- A concrete single-choice analysis with a definite answer. -/
def okAnalysis : QuestionAnalysis :=
  ⟨"What is 2+2?", "multiple-choice-single", some ["3", "4"], .str "4"⟩

/-- A run environment in which every step of every question succeeds. -/
def okEnvs : Nat → QuestionEnv :=
  fun _ => ⟨true, okAnalysis, fun _ => true, true, true⟩

/-- A run environment in which everything succeeds except the Submit Quiz
click on question 2. -/
def submitFailEnvs : Nat → QuestionEnv :=
  fun i => ⟨true, okAnalysis, fun _ => true, true, i != 2⟩

/-- A whole-run environment with a successful login and start but a count
indicator whose text does not parse to a number. -/
def discoveryFailRun : RunEnv :=
  ⟨⟨true, true, true⟩, true, .ok (some "N/A"), true, true, okEnvs⟩

/-- Claim C1 (amended): handleDiagnostic hands the outcome log built by the
loop to its caller exactly when no fatal step error escapes; when a fatal
step failure aborts the run, what propagates is the bare error — the log
built so far is dropped, not returned. -/
theorem abort_path_returns_error_not_log (envs : Nat → QuestionEnv)
    (n : Nat) :
    handleDiagnostic envs n =
      match (handleDiagnosticTrace envs n).2.2 with
      | none => Except.ok (handleDiagnosticTrace envs n).1
      | some e => Except.error e := by
  unfold handleDiagnostic handleDiagnosticTrace
  rw [diagLoop_eq_loopAux envs n n 1 []]
  cases (loopAux envs n 1 n).2.2 with
  | none => simp
  | some e => rfl

/-- Claim C1 counterexample: with two questions, question 1 advanced
successfully, so the internal log holds its outcome; yet when the Submit
Quiz click on question 2 fails, the caller of handleDiagnostic receives
only an error value — the non-empty partial log is not returned. -/
theorem run_abort_drops_partial_log_cex :
    handleDiagnostic submitFailEnvs 2 =
      Except.error "Failed to click Submit Quiz button for Q2" ∧
    (handleDiagnosticTrace submitFailEnvs 2).1 =
      [⟨1, okAnalysis, "next_question_clicked"⟩] := by
  exact ⟨by rfl, by decide⟩

/-- Claim C2 (amended): the first-option fallback fires exactly on a null
proposedAnswer: for a choice-type analysis with a null proposedAnswer, a
non-empty options list and a non-empty first label, the applied selection is
exactly the first option; an empty-sequence, empty-string or missing
proposedAnswer triggers no fallback and nothing is selected. -/
theorem fallback_selects_first_option (qtext qt o : String)
    (rest : List String) (hqt : isChoiceType qt) (ho : o ≠ "") :
    appliedLabels ⟨qtext, qt, some (o :: rest), .null⟩ = [o] ∧
    appliedLabels ⟨qtext, qt, some (o :: rest), .arr []⟩ = [] ∧
    appliedLabels ⟨qtext, qt, some (o :: rest), .str ""⟩ = [] ∧
    appliedLabels ⟨qtext, qt, some (o :: rest), .undef⟩ = [] := by
  refine ⟨?_, ?_, ?_, ?_⟩
  · by_cases hm : qt = "multiple-choice-multiple"
    · subst hm
      simp [appliedLabels, applyFallback, plannedClicks, isChoiceType,
        JsAnswer.truthy, JsAnswer.isArr, JsAnswer.arrVal]
    · simp [appliedLabels, applyFallback, plannedClicks, hqt, hm,
        JsAnswer.truthy, JsAnswer.isArr, JsAnswer.isStr, JsAnswer.strVal, ho]
  · by_cases hm : qt = "multiple-choice-multiple" <;>
      simp [appliedLabels, applyFallback, plannedClicks, hqt, hm,
        JsAnswer.truthy, JsAnswer.isArr, JsAnswer.isStr, JsAnswer.arrVal]
  · simp [appliedLabels, applyFallback, plannedClicks, JsAnswer.truthy]
  · simp [appliedLabels, applyFallback, plannedClicks, JsAnswer.truthy]

/-- Witness for claim C2 at the spec's own example options A, B, C. -/
theorem fallback_selects_first_option_witness :
    appliedLabels
        ⟨"Q", "multiple-choice-single", some ["A", "B", "C"], .null⟩ =
      ["A"] ∧
    appliedLabels
        ⟨"Q", "multiple-choice-single", some ["A", "B", "C"], .arr []⟩ =
      [] ∧
    appliedLabels
        ⟨"Q", "multiple-choice-single", some ["A", "B", "C"], .str ""⟩ =
      [] ∧
    appliedLabels
        ⟨"Q", "multiple-choice-single", some ["A", "B", "C"], .undef⟩ =
      [] :=
  fallback_selects_first_option "Q" "multiple-choice-single" "A" ["B", "C"]
    (Or.inl rfl) (by decide)

/-- Claim C2 counterexample: a multi-choice analysis whose proposedAnswer is
the empty sequence and whose options are A, B, C selects nothing — not the
one-element sequence A that the claim requires for an empty proposedAnswer
with non-empty options. -/
theorem empty_proposed_answer_selects_nothing_cex :
    appliedLabels
        ⟨"Q", "multiple-choice-multiple", some ["A", "B", "C"], .arr []⟩ =
      [] ∧
    appliedLabels
        ⟨"Q", "multiple-choice-multiple", some ["A", "B", "C"], .arr []⟩ ≠
      ["A"] := by
  exact ⟨by decide, by decide⟩

/-- Claim C3: in a run over n questions, every question the executor carries
to its terminal step attempts the advance button exactly when its index is
below n and the submit button exactly when its index equals n. -/
theorem terminal_action_matches_position (envs : Nat → QuestionEnv)
    (n : Nat) (tr : StepTrace)
    (htr : tr ∈ (handleDiagnosticTrace envs n).2.1)
    (a : String) (ha : tr.terminalAttempt = some a) :
    (a = "advance" ↔ tr.questionIndex < n) ∧
    (a = "submit" ↔ tr.questionIndex = n) := by
  unfold handleDiagnosticTrace at htr
  have h := loopAux_trace_mem envs n n 1 tr htr
  rcases h with ⟨h1, h2, h3 | h3⟩
  · rw [ha] at h3
    exact absurd h3 (by simp)
  · rw [ha] at h3
    injection h3 with h4
    subst h4
    by_cases hlt : tr.questionIndex < n
    · rw [if_pos hlt]
      have hne : tr.questionIndex ≠ n := by omega
      simp [hlt, hne]
    · rw [if_neg hlt]
      have hqn : tr.questionIndex = n := by omega
      simp [hqn]

/-- Witness for claim C3: in the fully successful three-question run,
question 1 attempted advance, and advance is attempted exactly below the
total. -/
theorem terminal_action_matches_position_witness :
    (("advance" : String) = "advance" ↔ (1 : Nat) < 3) ∧
    (("advance" : String) = "submit" ↔ (1 : Nat) = 3) := by
  have h := terminal_action_matches_position okEnvs 3
    ⟨1, [("4", true)], some "advance"⟩ (by decide) "advance" rfl
  simpa using h

/-- Claim C4: for a multi-choice analysis with a non-empty proposed label
sequence, a click is attempted for exactly those labels, each paired with
its own click result independently of the others, and the question still
reaches its terminal step whatever the click results. -/
theorem multi_choice_clicks_independent (qtext : String)
    (opts : Option (List String)) (l : List String) (hl : l ≠ [])
    (clickOk : String → Bool) (idx total : Nat) (nOk sOk : Bool) :
    appliedSelection clickOk
        (applyFallback ⟨qtext, "multiple-choice-multiple", opts, .arr l⟩) =
      l.map (fun lab => (lab, clickOk lab)) ∧
    (appliedSelection clickOk
        (applyFallback
          ⟨qtext, "multiple-choice-multiple", opts, .arr l⟩)).map
        Prod.fst = l ∧
    (questionTrace
        ⟨true, ⟨qtext, "multiple-choice-multiple", opts, .arr l⟩,
          clickOk, nOk, sOk⟩ idx total).terminalAttempt =
      some (if idx < total then "advance" else "submit") := by
  have hbase : appliedSelection clickOk
      (applyFallback ⟨qtext, "multiple-choice-multiple", opts, .arr l⟩) =
      l.map (fun lab => (lab, clickOk lab)) := by
    cases opts with
    | none =>
      simp [appliedSelection, applyFallback, plannedClicks, isChoiceType,
        JsAnswer.truthy, JsAnswer.isArr, JsAnswer.arrVal]
    | some os =>
      cases os with
      | nil =>
        simp [appliedSelection, applyFallback, plannedClicks, isChoiceType,
          JsAnswer.truthy, JsAnswer.isArr, JsAnswer.arrVal]
      | cons o os =>
        simp [appliedSelection, applyFallback, plannedClicks, isChoiceType,
          JsAnswer.truthy, JsAnswer.isArr, JsAnswer.arrVal]
  refine ⟨hbase, ?_, ?_⟩
  · rw [hbase]
    clear hbase hl
    induction l with
    | nil => rfl
    | cons x xs ihx => simpa using ihx
  · simp [questionTrace]

/-- Witness for claim C4 at the spec's own example: proposed labels B and C
with options A, B, C, where the click on C fails and the click on B still
lands. -/
theorem multi_choice_clicks_independent_witness :
    (["B", "C"] : List String) ≠ [] ∧
    appliedSelection (fun s => s == "B")
        (applyFallback
          ⟨"Q", "multiple-choice-multiple", some ["A", "B", "C"],
            .arr ["B", "C"]⟩) =
      [("B", true), ("C", false)] := by
  have h := multi_choice_clicks_independent "Q" (some ["A", "B", "C"])
    ["B", "C"] (by decide) (fun s => s == "B") 1 3 true true
  refine ⟨by decide, ?_⟩
  rw [h.1]
  decide

/-- Claim C5: the outcome log never exceeds the question total in length,
and its entry at 0-based position k records question k + 1 — the indices
are strictly increasing, gapless and 1-based. -/
theorem outcome_log_gapless (envs : Nat → QuestionEnv) (n : Nat) :
    (handleDiagnosticTrace envs n).1.length ≤ n ∧
    ∀ k, k < (handleDiagnosticTrace envs n).1.length →
      ((handleDiagnosticTrace envs n).1.getD k dummyOutcome).questionIndex =
        k + 1 := by
  constructor
  · exact loopAux_log_length_le envs n n 1
  · intro k hk
    unfold handleDiagnosticTrace at hk ⊢
    have h := loopAux_log_index envs n n 1 k hk
    omega

/-- Witness for claim C5 on the successful three-question run: the log holds
at most three entries and its entry at position 1 records question 2. -/
theorem outcome_log_gapless_witness :
    (handleDiagnosticTrace okEnvs 3).1.length ≤ 3 ∧
    ((handleDiagnosticTrace okEnvs 3).1.getD 1 dummyOutcome).questionIndex =
      2 :=
  ⟨(outcome_log_gapless okEnvs 3).1,
    (outcome_log_gapless okEnvs 3).2 1 (by decide)⟩

/-- Claim C6: when question-count discovery fails — the indicator read
throws, or its text parses to NaN or to a non-positive integer — the total
resolves to exactly 1, the run proceeds past discovery, and the question
loop enters exactly one iteration. -/
theorem discovery_failure_defaults_to_one (env : RunEnv)
    (hlogin : (loginToCanvas env.login).2 = true)
    (hw : env.startWaitOk = true) (hc : env.startClickOk = true)
    (hp : env.postStartWaitOk = true)
    (hfail : discoveryFailed env.countRead = true) :
    resolveMaxQuestions env.countRead = 1 ∧
    (runCanvasScraper env).totalResolved = some 1 ∧
    (runCanvasScraper env).invocations = 1 := by
  have h1 : resolveMaxQuestions env.countRead = 1 := by
    cases hcr : env.countRead with
    | error u => simp [resolveMaxQuestions]
    | ok v =>
      simp only [hcr, discoveryFailed] at hfail
      cases hpi : jsParseInt (jsNullableText v) with
      | none => simp [resolveMaxQuestions, hpi]
      | some m =>
        simp only [hpi] at hfail
        have hm : m ≤ 0 := of_decide_eq_true hfail
        simp [resolveMaxQuestions, hpi, hm]
  refine ⟨h1, ?_, ?_⟩
  · simp [runCanvasScraper, hlogin, hw, hc, hp, h1]
  · simp only [runCanvasScraper, hlogin, hw, hc, hp, h1, if_true]
    simpa [handleDiagnosticTrace] using
      loopAux_one_invocation env.qenvs 1 1

/-- Witness for claim C6 on a run whose count indicator reads N/A. -/
theorem discovery_failure_defaults_to_one_witness :
    resolveMaxQuestions discoveryFailRun.countRead = 1 ∧
    (runCanvasScraper discoveryFailRun).totalResolved = some 1 ∧
    (runCanvasScraper discoveryFailRun).invocations = 1 :=
  discovery_failure_defaults_to_one discoveryFailRun rfl rfl rfl rfl
    (by decide)

/-- Claim C7: across every exit path — login failure before or after the
browser handle exists, a failure of any later step, or full success — the
browser close is invoked exactly once when the handle was created and never
otherwise. -/
theorem browser_closed_exactly_once (env : RunEnv) :
    (runCanvasScraper env).closes =
      if browserCreated env.login then 1 else 0 := by
  rcases env with ⟨⟨sc, co, pc⟩, sw, cr, stc, psw, qe⟩
  cases sc <;> cases co <;> cases pc <;> cases sw <;> cases stc <;>
    cases psw <;>
    simp [runCanvasScraper, loginToCanvas, browserCreated]

/-- Claim C8: once a quiz_submitted outcome is recorded the loop stops at
once — the submitted entry closes the log, and the number of loop
iterations entered equals its 1-based position, so no later question is
ever entered. -/
theorem submitted_outcome_ends_run (envs : Nat → QuestionEnv) (n k : Nat)
    (hk : k < (handleDiagnosticTrace envs n).1.length)
    (hsub :
      ((handleDiagnosticTrace envs n).1.getD k dummyOutcome).actionTaken =
        "quiz_submitted") :
    k + 1 = (handleDiagnosticTrace envs n).1.length ∧
    (handleDiagnosticTrace envs n).2.1.length = k + 1 := by
  unfold handleDiagnosticTrace at hk hsub ⊢
  have h := loopAux_submitted_last envs n n 1 k hk hsub
  have h2 := loopAux_traces_length envs n n 1 h.2
  exact ⟨h.1, by rw [h2, ← h.1]⟩

/-- Witness for claim C8 on the successful three-question run: the
submitted entry sits at position 2 and the loop entered three iterations. -/
theorem submitted_outcome_ends_run_witness :
    2 + 1 = (handleDiagnosticTrace okEnvs 3).1.length ∧
    (handleDiagnosticTrace okEnvs 3).2.1.length = 2 + 1 :=
  submitted_outcome_ends_run okEnvs 3 2 (by decide) (by decide)

/-- Claim C9: every entry of the outcome log carries a successful terminal
action — next clicked or quiz submitted; a failed advance or submit click
throws before the entry is appended, so no failed terminal action ever
appears in the log. -/
theorem log_actions_always_successful (envs : Nat → QuestionEnv) (n : Nat)
    (o : QuestionOutcome) (ho : o ∈ (handleDiagnosticTrace envs n).1) :
    o.actionTaken = "next_question_clicked" ∨
    o.actionTaken = "quiz_submitted" := by
  unfold handleDiagnosticTrace at ho
  exact loopAux_log_action envs n n 1 o ho

/-- Witness for claim C9 at the first entry of the successful run. -/
theorem log_actions_always_successful_witness :
    (("next_question_clicked" : String) = "next_question_clicked" ∨
     ("next_question_clicked" : String) = "quiz_submitted") := by
  have h := log_actions_always_successful okEnvs 3
    ⟨1, okAnalysis, "next_question_clicked"⟩ (by decide)
  simpa using h

/-- Claim C10: for a single-choice or bare multiple-choice analysis whose
proposedAnswer is a non-empty string, the selector plans a click on exactly
that label even when it does not occur in the options list — membership of
the proposed answer in the options is never checked. -/
theorem proposed_answer_clicked_without_membership (qtext qt s : String)
    (opts : List String) (hs : s ≠ "") (hmem : s ∉ opts)
    (hqt : qt = "multiple-choice-single" ∨ qt = "multiple-choice") :
    appliedLabels ⟨qtext, qt, some opts, .str s⟩ = [s] := by
  have hqt2 : isChoiceType qt := by
    rcases hqt with h | h
    · exact Or.inl h
    · exact Or.inr (Or.inl h)
  simp [appliedLabels, applyFallback, plannedClicks, hqt2,
    JsAnswer.truthy, JsAnswer.isArr, JsAnswer.isStr, JsAnswer.strVal, hs]

/-- Witness for claim C10: proposed answer E is clicked although the options
are only A and B. -/
theorem proposed_answer_clicked_without_membership_witness :
    appliedLabels ⟨"Q", "multiple-choice", some ["A", "B"], .str "E"⟩ =
      ["E"] :=
  proposed_answer_clicked_without_membership "Q" "multiple-choice" "E"
    ["A", "B"] (by decide) (by decide) (Or.inr rfl)

end Pandora
